import Mathlib

/-!
Shallow embedding of the codicense License Compatibility and Risk Analysis
Engine, translated from the TypeScript sources:

* `src/engine/compatibility-matrix.ts` (CompatibilityMatrix),
* `src/license-db.ts` (LicenseDatabase),
* `src/engine/conflict-detector.ts` (ConflictDetector),
* `src/engine/causal-impact-engine.ts` (CausalImpactEngine),
* `src/ili/dynamic-risk-engine.ts` (DynamicRiskEngine),
* `src/ili/fix-first-engine.ts` (FixFirstEngine).

Machine strings are Lean `String`; JavaScript `String.prototype.includes`,
`trim`, `split` and regex helpers are embedded as executable functions on
character lists.  Prose fields of the records (reasons, explanations, legal
references, tradeoffs) do not influence any verified property and are omitted
from the record embeddings; the control flow that produces them is kept.
-/

namespace Codicense

/-- Severity levels of `src/types.ts` (`type Severity`). -/
inductive Severity where
  | CRITICAL
  | HIGH
  | MEDIUM
  | LOW
deriving DecidableEq, Repr

/-- Linking models of `src/types.ts` (`type LinkingModel`). -/
inductive LinkingModel where
  | static
  | dynamic
  | runtime
  | microservice
deriving DecidableEq, Repr

/-- Distribution models of `src/types.ts` (`type DistributionModel`);
`openSource` embeds the string literal `open-source` and `internalOnly`
embeds `internal-only`. -/
inductive DistributionModel where
  | proprietary
  | saas
  | cli
  | library
  | openSource
  | internalOnly
deriving DecidableEq, Repr

/-- License categories of `src/types.ts` (`type LicenseCategory`);
`proprietaryCat` embeds the string literal `proprietary`. -/
inductive LicenseCategory where
  | permissive
  | weakCopyleft
  | strongCopyleft
  | proprietaryCat
deriving DecidableEq, Repr

/-! ### JavaScript string primitives -/

/-- Does the character list start with the given pattern?  Embeds the
prefix test underlying `String.prototype.includes`. -/
def startsWithCL : List Char → List Char → Bool
  | _, [] => true
  | [], _ :: _ => false
  | c :: cs, d :: ds => c == d && startsWithCL cs ds

/-- Substring search on character lists (`String.prototype.includes`). -/
def containsCL : List Char → List Char → Bool
  | [], needle => needle.isEmpty
  | c :: cs, needle => startsWithCL (c :: cs) needle || containsCL cs needle

/-- JavaScript `haystack.includes(needle)`. -/
def strIncludes (haystack needle : String) : Bool :=
  containsCL haystack.data needle.data

/-- Whitespace class of the JavaScript regex `\s` (ASCII approximation). -/
def isWsChar (c : Char) : Bool := c == ' ' || c == '\t' || c == '\n' || c == '\r'

/-- Drop a maximal run of whitespace characters. -/
def dropWsMax : List Char → List Char
  | [] => []
  | c :: cs => if isWsChar c then dropWsMax cs else c :: cs

/-- JavaScript `String.prototype.trim` (ASCII whitespace approximation):
drop whitespace from both ends. -/
def jsTrim (s : String) : String :=
  String.mk (dropWsMax ((dropWsMax s.data.reverse).reverse))

/-- Lowercasing used by the `i` regex flag and `toLowerCase` call sites. -/
def strToLower (s : String) : String := String.mk (s.data.map Char.toLower)

/-- Require at least one whitespace character and drop the maximal run
(the greedy `\s+`); `none` if the list does not start with whitespace. -/
def dropWsPlus : List Char → Option (List Char)
  | [] => none
  | c :: cs => if isWsChar c then some (dropWsMax cs) else none

/-- Match the regex `\s+OR\s+` (case-insensitive) at the head of the list,
returning the remainder after the match. -/
def matchORSep (l : List Char) : Option (List Char) :=
  match dropWsPlus l with
  | none => none
  | some l1 =>
    match l1 with
    | c1 :: c2 :: rest =>
      if (c1 == 'O' || c1 == 'o') && (c2 == 'R' || c2 == 'r') then
        dropWsPlus rest
      else
        none
    | _ => none

/-- Fueled worker for `jsSplitOR`; the fuel is an upper bound on the number
of characters still to be consumed, so it never runs out when primed with
`length + 1`. -/
def splitORGo : Nat → List Char → List Char → List (List Char)
  | 0, acc, l => [acc.reverse ++ l]
  | _ + 1, acc, [] => [acc.reverse]
  | fuel + 1, acc, c :: cs =>
    match matchORSep (c :: cs) with
    | some rest => acc.reverse :: splitORGo fuel [] rest
    | none => splitORGo fuel (c :: acc) cs

/-- JavaScript `license.split(/\s+OR\s+/i)` of `ConflictDetector.checkNode`. -/
def jsSplitOR (s : String) : List String :=
  (splitORGo (s.data.length + 1) [] s.data).map String.mk

/-! ### License database (`src/license-db.ts`)

The database loads the external `spdx-license-list/full` package and overlays
curated category/obligation records.  The spec treats license-text database
loading as an external collaborator consumed only as a license-id to
category lookup; `spdxIds` is the finite slice of that external SPDX data
containing every identifier the rule matrix and the verified claims touch.
Strings outside this slice behave as unknown licenses, exactly as unknown
identifiers do in the code. -/

/-- Identifiers present in the loaded SPDX list that this development uses
(slice of the external `spdx-license-list/full` data). -/
def spdxIds : List String :=
  ["MIT", "Apache-2.0", "BSD-3-Clause", "BSD-2-Clause", "ISC",
   "GPL-2.0", "GPL-3.0", "AGPL-3.0", "LGPL-2.1", "LGPL-3.0", "MPL-2.0",
   "EPL-2.0", "EUPL-1.2", "CDDL-1.0", "CC0-1.0", "CC-BY-4.0",
   "CC-BY-SA-4.0", "CC-BY-NC-4.0", "0BSD", "Unlicense", "WTFPL",
   "Artistic-2.0", "Zlib", "PSF-2.0",
   "GPL-2.0-only", "GPL-2.0-or-later", "GPL-3.0-only", "GPL-3.0-or-later",
   "AGPL-3.0-only", "AGPL-3.0-or-later", "LGPL-2.1-only", "LGPL-3.0-only"]

/-- The alias map of `LicenseDatabase.setupAliases`. -/
def licenseAliases : List (String × String) :=
  [("GPL-2.0-only", "GPL-2.0"), ("GPL-2.0-or-later", "GPL-2.0"),
   ("GPL-3.0-only", "GPL-3.0"), ("GPL-3.0-or-later", "GPL-3.0"),
   ("AGPL-3.0-only", "AGPL-3.0"), ("AGPL-3.0-or-later", "AGPL-3.0"),
   ("LGPL-2.1-only", "LGPL-2.1"), ("LGPL-2.1-or-later", "LGPL-2.1"),
   ("LGPL-3.0-only", "LGPL-3.0"), ("LGPL-3.0-or-later", "LGPL-3.0"),
   ("BSD", "BSD-3-Clause"), ("Apache", "Apache-2.0"),
   ("Apache 2.0", "Apache-2.0"), ("Apache License 2.0", "Apache-2.0")]

/-- The curated categories of `LicenseDatabase.getCoreDefinitions`. -/
def coreCategories : List (String × LicenseCategory) :=
  [("MIT", .permissive), ("Apache-2.0", .permissive),
   ("BSD-3-Clause", .permissive), ("BSD-2-Clause", .permissive),
   ("ISC", .permissive),
   ("LGPL-2.1", .weakCopyleft), ("LGPL-3.0", .weakCopyleft),
   ("MPL-2.0", .weakCopyleft),
   ("GPL-2.0", .strongCopyleft), ("GPL-3.0", .strongCopyleft),
   ("AGPL-3.0", .strongCopyleft)]

/-- `LicenseDatabase.inferCategory`: category inference by substring tests
on the lowercased identifier. -/
def inferCategory (licenseId : String) : LicenseCategory :=
  let id := strToLower licenseId
  if strIncludes id "gpl" || strIncludes id "agpl" then .strongCopyleft
  else if strIncludes id "lgpl" || strIncludes id "mpl" ||
          strIncludes id "epl" || strIncludes id "cddl" then .weakCopyleft
  else if strIncludes id "proprietary" || id == "unlicensed" then .proprietaryCat
  else .permissive

/-- Category stored for an identifier of the SPDX list: the curated record
when one exists, the inferred category otherwise
(`LicenseDatabase.loadSpdxLicenses`). -/
def storedCategory (id : String) : LicenseCategory :=
  match coreCategories.lookup id with
  | some c => c
  | none => inferCategory id

/-- `LicenseDatabase.getLicense`, restricted to the category field: direct
SPDX lookup first, then the alias map; `none` for unknown identifiers. -/
def getLicenseCategory (id : String) : Option LicenseCategory :=
  if spdxIds.contains id then some (storedCategory id)
  else
    match licenseAliases.lookup id with
    | some canonical =>
      if spdxIds.contains canonical then some (storedCategory canonical) else none
    | none => none

/-- `LicenseDatabase.normalizeLicenseId`: trim, keep identifiers already in
the SPDX list, otherwise resolve aliases, otherwise return unchanged. -/
def normalizeLicenseId (id : String) : String :=
  let normalized := jsTrim id
  if spdxIds.contains normalized then normalized
  else
    match licenseAliases.lookup normalized with
    | some canonical => canonical
    | none => normalized

/-! ### CompatibilityMatrix (`src/engine/compatibility-matrix.ts`) -/

/-- One entry of the rule table (`CompatibilityRule` of `src/types.ts`);
the prose `reason`/`spdxRef`/`legalBasis` fields and the generated rule ids
are traceability metadata and are omitted. -/
structure CompatibilityRule where
  projectLicense : String
  dependencyLicense : String
  linkingModel : LinkingModel
  distributionModel : DistributionModel
  compatible : Bool
  severity : Severity
deriving DecidableEq, Repr

/-- `CompatibilityResult` of `src/engine/compatibility-matrix.ts`, without
the prose fields. -/
structure CompatibilityResult where
  compatible : Bool
  severity : Severity
  isHeuristic : Bool
deriving DecidableEq, Repr

set_option maxHeartbeats 1000000 in
/-- The complete rule table built by `CompatibilityMatrix.buildRules`, in
construction order (the order matters for `findRule`). -/
def compatibilityRules : List CompatibilityRule :=
  [ -- MIT project
   ⟨"MIT", "MIT", .static, .proprietary, true, .LOW⟩,
   ⟨"MIT", "Apache-2.0", .static, .proprietary, true, .LOW⟩,
   ⟨"MIT", "BSD-3-Clause", .static, .proprietary, true, .LOW⟩,
   ⟨"MIT", "ISC", .static, .proprietary, true, .LOW⟩,
   ⟨"MIT", "GPL-2.0", .static, .proprietary, false, .CRITICAL⟩,
   ⟨"MIT", "GPL-3.0", .static, .proprietary, false, .CRITICAL⟩,
   ⟨"MIT", "AGPL-3.0", .static, .proprietary, false, .CRITICAL⟩,
   ⟨"MIT", "AGPL-3.0", .static, .saas, false, .CRITICAL⟩,
   ⟨"MIT", "LGPL-2.1", .dynamic, .proprietary, true, .LOW⟩,
   ⟨"MIT", "LGPL-2.1", .static, .proprietary, false, .HIGH⟩,
   ⟨"MIT", "LGPL-3.0", .dynamic, .proprietary, true, .LOW⟩,
   ⟨"MIT", "MPL-2.0", .static, .proprietary, true, .MEDIUM⟩,
   -- Apache-2.0 project
   ⟨"Apache-2.0", "MIT", .static, .proprietary, true, .LOW⟩,
   ⟨"Apache-2.0", "Apache-2.0", .static, .proprietary, true, .LOW⟩,
   ⟨"Apache-2.0", "GPL-2.0", .static, .proprietary, false, .CRITICAL⟩,
   ⟨"Apache-2.0", "GPL-3.0", .static, .proprietary, false, .CRITICAL⟩,
   -- GPL projects (open-source)
   ⟨"GPL-3.0", "MIT", .static, .openSource, true, .LOW⟩,
   ⟨"GPL-3.0", "Apache-2.0", .static, .openSource, true, .LOW⟩,
   ⟨"GPL-3.0", "GPL-3.0", .static, .openSource, true, .LOW⟩,
   ⟨"GPL-2.0", "Apache-2.0", .static, .openSource, false, .HIGH⟩,
   -- Microservice architecture
   ⟨"MIT", "GPL-3.0", .microservice, .proprietary, true, .LOW⟩,
   ⟨"MIT", "AGPL-3.0", .microservice, .saas, false, .HIGH⟩,
   -- BSD-3-Clause project
   ⟨"BSD-3-Clause", "MIT", .static, .proprietary, true, .LOW⟩,
   ⟨"BSD-3-Clause", "Apache-2.0", .static, .proprietary, true, .LOW⟩,
   ⟨"BSD-3-Clause", "BSD-3-Clause", .static, .proprietary, true, .LOW⟩,
   ⟨"BSD-3-Clause", "BSD-2-Clause", .static, .proprietary, true, .LOW⟩,
   ⟨"BSD-3-Clause", "ISC", .static, .proprietary, true, .LOW⟩,
   ⟨"BSD-3-Clause", "GPL-3.0", .static, .proprietary, false, .CRITICAL⟩,
   ⟨"BSD-3-Clause", "GPL-2.0", .static, .proprietary, false, .CRITICAL⟩,
   -- ISC project
   ⟨"ISC", "MIT", .static, .proprietary, true, .LOW⟩,
   ⟨"ISC", "ISC", .static, .proprietary, true, .LOW⟩,
   ⟨"ISC", "Apache-2.0", .static, .proprietary, true, .LOW⟩,
   ⟨"ISC", "BSD-3-Clause", .static, .proprietary, true, .LOW⟩,
   ⟨"ISC", "GPL-3.0", .static, .proprietary, false, .CRITICAL⟩,
   -- 0BSD
   ⟨"0BSD", "MIT", .static, .proprietary, true, .LOW⟩,
   ⟨"0BSD", "GPL-3.0", .static, .proprietary, false, .CRITICAL⟩,
   ⟨"MIT", "0BSD", .static, .proprietary, true, .LOW⟩,
   -- Unlicense
   ⟨"MIT", "Unlicense", .static, .proprietary, true, .LOW⟩,
   ⟨"Apache-2.0", "Unlicense", .static, .proprietary, true, .LOW⟩,
   ⟨"GPL-3.0", "Unlicense", .static, .openSource, true, .LOW⟩,
   -- CC0
   ⟨"MIT", "CC0-1.0", .static, .proprietary, true, .LOW⟩,
   ⟨"Apache-2.0", "CC0-1.0", .static, .proprietary, true, .LOW⟩,
   -- WTFPL
   ⟨"MIT", "WTFPL", .static, .proprietary, true, .LOW⟩,
   ⟨"Apache-2.0", "WTFPL", .static, .proprietary, true, .LOW⟩,
   -- Artistic-2.0
   ⟨"MIT", "Artistic-2.0", .static, .proprietary, true, .LOW⟩,
   ⟨"Apache-2.0", "Artistic-2.0", .static, .proprietary, true, .LOW⟩,
   -- Zlib
   ⟨"MIT", "Zlib", .static, .proprietary, true, .LOW⟩,
   ⟨"Apache-2.0", "Zlib", .static, .proprietary, true, .LOW⟩,
   -- PSF-2.0
   ⟨"MIT", "PSF-2.0", .static, .proprietary, true, .LOW⟩,
   -- EUPL
   ⟨"MIT", "EUPL-1.2", .static, .proprietary, false, .HIGH⟩,
   ⟨"GPL-3.0", "EUPL-1.2", .static, .openSource, true, .LOW⟩,
   -- EPL
   ⟨"MIT", "EPL-2.0", .static, .proprietary, false, .HIGH⟩,
   ⟨"MIT", "EPL-2.0", .dynamic, .proprietary, true, .MEDIUM⟩,
   ⟨"Apache-2.0", "EPL-2.0", .static, .proprietary, false, .HIGH⟩,
   -- CDDL
   ⟨"MIT", "CDDL-1.0", .static, .proprietary, true, .MEDIUM⟩,
   ⟨"GPL-2.0", "CDDL-1.0", .static, .openSource, false, .CRITICAL⟩,
   -- Open-source distribution models
   ⟨"MIT", "GPL-2.0", .static, .openSource, true, .MEDIUM⟩,
   ⟨"MIT", "GPL-3.0", .static, .openSource, true, .MEDIUM⟩,
   ⟨"Apache-2.0", "GPL-3.0", .static, .openSource, true, .MEDIUM⟩,
   ⟨"BSD-3-Clause", "GPL-3.0", .static, .openSource, true, .MEDIUM⟩,
   -- SaaS distribution models
   ⟨"MIT", "GPL-3.0", .static, .saas, true, .LOW⟩,
   ⟨"Apache-2.0", "GPL-3.0", .static, .saas, true, .LOW⟩,
   ⟨"MIT", "LGPL-2.1", .static, .saas, true, .LOW⟩,
   ⟨"Apache-2.0", "AGPL-3.0", .static, .saas, false, .CRITICAL⟩,
   -- Dynamic linking variations
   ⟨"MIT", "GPL-2.0", .dynamic, .proprietary, false, .CRITICAL⟩,
   ⟨"MIT", "GPL-3.0", .dynamic, .proprietary, false, .CRITICAL⟩,
   ⟨"Apache-2.0", "LGPL-2.1", .dynamic, .proprietary, true, .LOW⟩,
   ⟨"Apache-2.0", "LGPL-3.0", .dynamic, .proprietary, true, .LOW⟩,
   ⟨"BSD-3-Clause", "LGPL-2.1", .dynamic, .proprietary, true, .LOW⟩,
   -- LGPL variations
   ⟨"Apache-2.0", "LGPL-2.1", .static, .proprietary, false, .HIGH⟩,
   ⟨"Apache-2.0", "LGPL-3.0", .static, .proprietary, false, .HIGH⟩,
   ⟨"MIT", "LGPL-3.0", .static, .proprietary, false, .HIGH⟩,
   -- CC licenses
   ⟨"MIT", "CC-BY-4.0", .static, .proprietary, true, .LOW⟩,
   ⟨"MIT", "CC-BY-SA-4.0", .static, .proprietary, false, .HIGH⟩,
   ⟨"MIT", "CC-BY-NC-4.0", .static, .proprietary, false, .CRITICAL⟩,
   -- Special cases
   ⟨"GPL-2.0-only", "GPL-3.0-only", .static, .openSource, false, .CRITICAL⟩,
   ⟨"GPL-2.0-or-later", "GPL-3.0-only", .static, .openSource, true, .LOW⟩]

/-- `CompatibilityMatrix.findRule`: exact 4-tuple match first, wildcard
license match second. -/
def findRule (projectLicense dependencyLicense : String)
    (linkingModel : LinkingModel) (distributionModel : DistributionModel) :
    Option CompatibilityRule :=
  match compatibilityRules.find? (fun rule =>
      rule.projectLicense == projectLicense &&
      rule.dependencyLicense == dependencyLicense &&
      rule.linkingModel == linkingModel &&
      rule.distributionModel == distributionModel) with
  | some exactMatch => some exactMatch
  | none =>
    compatibilityRules.find? (fun rule =>
      (rule.projectLicense == projectLicense || rule.projectLicense == "*") &&
      (rule.dependencyLicense == dependencyLicense || rule.dependencyLicense == "*") &&
      rule.linkingModel == linkingModel &&
      rule.distributionModel == distributionModel)

/-- `CompatibilityMatrix.heuristicCheck`: category-based fallback verdicts. -/
def heuristicCheck (_projectLicense dependencyLicense : String)
    (linkingModel : LinkingModel) (distributionModel : DistributionModel) :
    CompatibilityResult :=
  match getLicenseCategory dependencyLicense with
  | none => ⟨true, .LOW, true⟩
  | some category =>
    if dependencyLicense == "UNKNOWN" then ⟨true, .LOW, true⟩
    else if category == .permissive then ⟨true, .LOW, true⟩
    else if category == .strongCopyleft && distributionModel == .proprietary then
      ⟨false, .CRITICAL, true⟩
    else if category == .weakCopyleft && linkingModel == .dynamic then
      ⟨true, .LOW, true⟩
    else ⟨false, .MEDIUM, true⟩

/-- `CompatibilityMatrix.isCompatible`: normalize both identifiers, look for
an explicit or wildcard rule, reject under strict mode, otherwise fall back
to the category heuristic. -/
def isCompatible (projectLicense dependencyLicense : String)
    (linkingModel : LinkingModel) (distributionModel : DistributionModel)
    (strictMode : Bool) : CompatibilityResult :=
  let normalizedProject := normalizeLicenseId projectLicense
  let normalizedDep := normalizeLicenseId dependencyLicense
  match findRule normalizedProject normalizedDep linkingModel distributionModel with
  | some rule => ⟨rule.compatible, rule.severity, false⟩
  | none =>
    if strictMode then ⟨false, .HIGH, false⟩
    else heuristicCheck normalizedProject normalizedDep linkingModel distributionModel

/-! ### ConflictDetector (`src/engine/conflict-detector.ts`) -/

/-- The `license` field of `DependencyNode` (`string | string[]` in
`src/types.ts`): a single SPDX expression string or an explicit
alternative set. -/
inductive NodeLicense where
  | str (s : String)
  | arr (licenses : List String)
deriving DecidableEq, Repr

/-- `DependencyNode` of `src/types.ts` (the optional `resolved` field is
unused by the engine; the optional `dev` flag defaults to false). -/
inductive DependencyNode where
  | mk (name version : String) (license : NodeLicense) (depth : Nat)
      (path : List String) (children : List DependencyNode) (dev : Bool)

def DependencyNode.name : DependencyNode → String
  | .mk n _ _ _ _ _ _ => n

def DependencyNode.version : DependencyNode → String
  | .mk _ v _ _ _ _ _ => v

def DependencyNode.license : DependencyNode → NodeLicense
  | .mk _ _ l _ _ _ _ => l

def DependencyNode.depth : DependencyNode → Nat
  | .mk _ _ _ d _ _ _ => d

def DependencyNode.path : DependencyNode → List String
  | .mk _ _ _ _ p _ _ => p

def DependencyNode.children : DependencyNode → List DependencyNode
  | .mk _ _ _ _ _ c _ => c

def DependencyNode.dev : DependencyNode → Bool
  | .mk _ _ _ _ _ _ d => d

/-- `ProjectConfig` of `src/types.ts`, with `policy.strictMode ?? false`
already folded into a plain boolean, as the `ConflictDetector` constructor
does. -/
structure ProjectConfig where
  projectLicense : String
  distributionModel : DistributionModel
  linkingModel : LinkingModel
  strictMode : Bool
deriving DecidableEq, Repr

/-- Fix types of `ConflictFix` in `src/types.ts`. -/
inductive ConflictFixType where
  | replace
  | architectural
  | relicense
deriving DecidableEq, Repr

/-- `ConflictFix` of `src/types.ts`; the description/steps prose and the
automation flags are omitted, the `action.add` package of an alternative
suggestion is kept as `addPackage`. -/
structure ConflictFix where
  fixType : ConflictFixType
  addPackage : Option String
deriving DecidableEq, Repr

/-- `Conflict` of `src/types.ts`; `reason`, `legalContext` and the
`triggeredRule` metadata are prose/traceability fields and are omitted.
The `id` is generated from a uuid in the code and is modelled as an
externally supplied opaque string. -/
structure Conflict where
  id : String
  severity : Severity
  depName : String
  depVersion : String
  depLicense : String
  depPath : List String
  contaminationPath : List String
  fixes : List ConflictFix
deriving DecidableEq, Repr

/-- Summary block of `ScanResult` in `src/types.ts`. -/
structure ScanSummary where
  totalDependencies : Nat
  conflicts : Nat
  critical : Nat
  high : Nat
  medium : Nat
  low : Nat
deriving DecidableEq, Repr

/-- `ScanResult` of `src/types.ts`; `scanId` and `timestamp` are generated
(uuid / clock) in the code and are modelled as externally supplied opaque
strings. -/
structure ScanResult where
  scanId : String
  timestamp : String
  projectLicense : String
  riskScore : Int
  summary : ScanSummary
  conflicts : List Conflict
deriving DecidableEq, Repr

/-- `ConflictDetector.severityWeight`. -/
def severityWeight : Severity → Nat
  | .CRITICAL => 4
  | .HIGH => 3
  | .MEDIUM => 2
  | .LOW => 1

mutual

/-- `ConflictDetector.collectNodes`: preorder collection of the tree. -/
def collectNodes : DependencyNode → List DependencyNode
  | .mk n v l d p children dv =>
    DependencyNode.mk n v l d p children dv :: collectNodesList children

/-- Preorder collection of a forest (the recursion of `collectNodes` over
the `children` array). -/
def collectNodesList : List DependencyNode → List DependencyNode
  | [] => []
  | c :: cs => collectNodes c ++ collectNodesList cs

end

/-- JavaScript template rendering of a `string | string[]` license value
(arrays stringify comma-separated). -/
def NodeLicense.display : NodeLicense → String
  | .str s => s
  | .arr licenses => String.intercalate "," licenses

/-- First element of a license value, as `Array.isArray(node.license) ?
node.license[0] : node.license` in `ConflictDetector.createConflict`. -/
def NodeLicense.first : NodeLicense → String
  | .str s => s
  | .arr licenses => licenses.headD ""

/-- The license alternatives evaluated by `ConflictDetector.checkNode`:
the array itself, or the string split on `/\s+OR\s+/i`. -/
def NodeLicense.alternatives : NodeLicense → List String
  | .str s => jsSplitOR s
  | .arr licenses => licenses

/-- The compatibility verdict for one license alternative of a node
(`compatibilityMatrix.isCompatible(...)` call in `checkNode`). -/
def nodeLicenseResult (config : ProjectConfig) (license : String) :
    CompatibilityResult :=
  isCompatible config.projectLicense (jsTrim license)
    config.linkingModel config.distributionModel config.strictMode

/-- The alternative-scanning loop of `ConflictDetector.checkNode`: `none`
when some alternative is compatible (or the list is exhausted with no
tracked result), otherwise the worst incompatible result. -/
def checkLicensesAux (config : ProjectConfig) :
    List String → Option CompatibilityResult → Option CompatibilityResult
  | [], best => best
  | license :: rest, best =>
    let result := nodeLicenseResult config license
    if result.compatible then none
    else
      match best with
      | none => checkLicensesAux config rest (some result)
      | some b =>
        if severityWeight result.severity > severityWeight b.severity then
          checkLicensesAux config rest (some result)
        else
          checkLicensesAux config rest (some b)

/-- `ConflictDetector.buildContaminationPath`: annotate the first segment
with the project license and the last with the node license and the
conflict marker. -/
def buildContaminationPath (config : ProjectConfig) (node : DependencyNode) :
    List String :=
  node.path.enum.map fun seg =>
    if seg.1 == node.path.length - 1 then
      seg.2 ++ " (" ++ node.license.display ++ ") ← CONFLICT"
    else if seg.1 == 0 then
      seg.2 ++ " (" ++ config.projectLicense ++ ")"
    else
      seg.2

/-- `ConflictDetector.suggestFixes`.  The external
`licenseFixEngine.searchAlternatives` collaborator is abstracted as the
`altNames` list of alternative package names it returned (possibly empty). -/
def suggestFixes (config : ProjectConfig) (_node : DependencyNode)
    (license : String) (altNames : List String) : List ConflictFix :=
  if strIncludes license "GPL" || strIncludes license "AGPL" then
    (match altNames with
     | [] => []
     | first :: _ => [⟨.replace, some first⟩]) ++
    [⟨.replace, none⟩] ++
    (if config.linkingModel == .static then [⟨.architectural, none⟩] else []) ++
    (if config.distributionModel == .openSource then [⟨.relicense, none⟩] else [])
  else
    []

/-- `ConflictDetector.createConflict` (id passed in, see `Conflict`). -/
def createConflict (config : ProjectConfig) (node : DependencyNode)
    (severity : Severity) (altNames : List String) : Conflict :=
  let license := node.license.first
  { id := ""
    severity := severity
    depName := node.name
    depVersion := node.version
    depLicense := license
    depPath := node.path
    contaminationPath := buildContaminationPath config node
    fixes := suggestFixes config node license altNames }

/-- `ConflictDetector.checkNode`: no conflict when some license alternative
is compatible, otherwise a conflict carrying the worst result. -/
def checkNode (config : ProjectConfig) (altNames : List String)
    (node : DependencyNode) : Option Conflict :=
  match checkLicensesAux config node.license.alternatives none with
  | none => none
  | some best => some (createConflict config node best.severity altNames)

/-- Per-severity risk penalty of `ConflictDetector.calculateRiskScore`. -/
def riskPenalty : Severity → Int
  | .CRITICAL => 30
  | .HIGH => 15
  | .MEDIUM => 5
  | .LOW => 2

/-- `ConflictDetector.calculateRiskScore`: start at 100, subtract the
per-severity penalties, clamp into [0, 100]. -/
def calculateRiskScore (conflicts : List Conflict) (totalDeps : Nat) : Int :=
  if totalDeps == 0 then 100
  else
    let score := conflicts.foldl (fun s c => s - riskPenalty c.severity) 100
    max 0 (min 100 score)

/-- Attach the externally generated conflict ids (uuid draws) to the
conflicts in creation order. -/
def attachIds (supply : Nat → String) : Nat → List Conflict → List Conflict
  | _, [] => []
  | i, c :: cs => { c with id := supply i } :: attachIds supply (i + 1) cs

/-- `ConflictDetector.scan`: collect all nodes, check every non-root
non-dev node, compute the risk score and the summary.  `scanId`,
`timestamp` and the conflict-id `supply` model the uuid/clock values the
code generates; `altNames` abstracts the external licenseFixEngine. -/
def scan (config : ProjectConfig) (altNames : List String)
    (root : DependencyNode) (scanId timestamp : String)
    (supply : Nat → String) : ScanResult :=
  let allNodes := collectNodes root
  let conflicts := attachIds supply 0
    (allNodes.filterMap fun node =>
      if node.depth == 0 then none
      else if node.dev then none
      else checkNode config altNames node)
  let riskScore := calculateRiskScore conflicts allNodes.length
  { scanId := scanId
    timestamp := timestamp
    projectLicense := config.projectLicense
    riskScore := riskScore
    summary :=
      { totalDependencies := allNodes.length - 1
        conflicts := conflicts.length
        critical := conflicts.countP (fun c => c.severity == .CRITICAL)
        high := conflicts.countP (fun c => c.severity == .HIGH)
        medium := conflicts.countP (fun c => c.severity == .MEDIUM)
        low := conflicts.countP (fun c => c.severity == .LOW) }
    conflicts := conflicts }

/-! ### CausalImpactEngine (`src/engine/causal-impact-engine.ts`) -/

/-- `SEVERITY_WEIGHT` of `src/engine/causal-impact-engine.ts`. -/
def causalSeverityWeight : Severity → Nat
  | .CRITICAL => 30
  | .HIGH => 15
  | .MEDIUM => 5
  | .LOW => 2

/-- Remove the first occurrence of `pat` from the character list
(JavaScript `String.prototype.replace` with a string pattern). -/
def removeFirstCL : List Char → List Char → List Char
  | [], _ => []
  | c :: cs, pat =>
    if startsWithCL (c :: cs) pat then (c :: cs).drop pat.length
    else c :: removeFirstCL cs pat

/-- Index of the first occurrence of a character
(JavaScript `String.prototype.indexOf`). -/
def firstIdxOf : List Char → Char → Option Nat
  | [], _ => none
  | c :: cs, target =>
    if c == target then some 0
    else (firstIdxOf cs target).map (· + 1)

/-- `CausalImpactEngine.stripLicense`: drop the conflict marker, then cut
at the opening parenthesis of the license annotation. -/
def stripLicense (segment : String) : String :=
  let trimmed := jsTrim (String.mk (removeFirstCL segment.data " ← CONFLICT".data))
  match firstIdxOf trimmed.data '(' with
  | some parenIndex =>
    if parenIndex > 0 then jsTrim (String.mk (trimmed.data.take parenIndex))
    else trimmed
  | none => trimmed

/-- `CausalImpactEngine.extractPathNodes`: contamination path without the
project root, license annotations stripped, empty segments dropped
(`filter(Boolean)`); fall back to the dependency name. -/
def extractPathNodes (conflict : Conflict) : List String :=
  if conflict.contaminationPath.length > 0 then
    ((conflict.contaminationPath.drop 1).map stripLicense).filter (fun s => !(s == ""))
  else
    [conflict.depName]

/-- The per-package accumulator of `CausalImpactEngine.analyze`
(`{ weight, conflicts, severity }` in the `byPackage` map). -/
structure CausalAcc where
  weight : Nat
  conflicts : Nat
  critical : Nat
  high : Nat
  medium : Nat
  low : Nat
deriving DecidableEq, Repr

/-- Add one conflict of the given severity to an accumulator entry. -/
def CausalAcc.bump (acc : CausalAcc) (severity : Severity) : CausalAcc :=
  { weight := acc.weight + causalSeverityWeight severity
    conflicts := acc.conflicts + 1
    critical := acc.critical + (if severity == .CRITICAL then 1 else 0)
    high := acc.high + (if severity == .HIGH then 1 else 0)
    medium := acc.medium + (if severity == .MEDIUM then 1 else 0)
    low := acc.low + (if severity == .LOW then 1 else 0) }

/-- Update the insertion-ordered `byPackage` table for one path node
(JavaScript `Map` keeps insertion order; new keys are appended). -/
def updateEntry (severity : Severity) :
    List (String × CausalAcc) → String → List (String × CausalAcc)
  | [], pkg => [(pkg, CausalAcc.bump ⟨0, 0, 0, 0, 0, 0⟩ severity)]
  | (p, acc) :: rest, pkg =>
    if p == pkg then (p, acc.bump severity) :: rest
    else (p, acc) :: updateEntry severity rest pkg

/-- The accumulation loop of `CausalImpactEngine.analyze`: every conflict
adds its severity weight to every node on its contamination path. -/
def accumulateImpacts (conflicts : List Conflict) : List (String × CausalAcc) :=
  conflicts.foldl
    (fun table conflict =>
      (extractPathNodes conflict).foldl (updateEntry conflict.severity) table)
    []

/-- `CausalImpact` of `src/engine/causal-impact-engine.ts`; the
`severityBreakdown` record is flattened into four counters.  The
percentage is an exact rational; `Number(x.toFixed(2))` is embedded as
rounding to two decimal places. -/
structure CausalImpact where
  packageName : String
  riskContribution : ℚ
  conflictsRemoved : Nat
  critical : Nat
  high : Nat
  medium : Nat
  low : Nat
  riskScoreAfterRemoval : Int
deriving DecidableEq, Repr

/-- `Number(x.toFixed(2))`: round to two decimal places. -/
def round2 (q : ℚ) : ℚ := (round (q * 100) : ℚ) / 100

/-- Build one `CausalImpact` from a `byPackage` entry
(body of the second loop of `CausalImpactEngine.analyze`). -/
def mkImpact (baselinePenalty currentRiskScore : Int)
    (entry : String × CausalAcc) : CausalImpact :=
  let contributionPct : ℚ :=
    if baselinePenalty == 0 then 0
    else min 100 ((entry.2.weight : ℚ) / (baselinePenalty : ℚ) * 100)
  { packageName := entry.1
    riskContribution := round2 contributionPct
    conflictsRemoved := entry.2.conflicts
    critical := entry.2.critical
    high := entry.2.high
    medium := entry.2.medium
    low := entry.2.low
    riskScoreAfterRemoval := min 100 (currentRiskScore + (entry.2.weight : Int)) }

/-- The sort comparator of `CausalImpactEngine.analyze`: contribution
descending, then conflict count descending, then package name ascending
(`localeCompare` embedded as the character ordering of `String`). -/
def impactLE (a b : CausalImpact) : Bool :=
  decide (b.riskContribution < a.riskContribution) ||
  (a.riskContribution == b.riskContribution &&
    (decide (b.conflictsRemoved < a.conflictsRemoved) ||
     (a.conflictsRemoved == b.conflictsRemoved &&
      !(decide (b.packageName < a.packageName)))))

/-- `CausalImpactEngine.analyze`. -/
def analyze (conflicts : List Conflict) (currentRiskScore : Int) :
    List CausalImpact :=
  let baselinePenalty : Int := max 0 (100 - currentRiskScore)
  if conflicts.length == 0 || baselinePenalty == 0 then []
  else
    ((accumulateImpacts conflicts).map
      (mkImpact baselinePenalty currentRiskScore)).mergeSort impactLE

/-! ### DynamicRiskEngine (`src/ili/dynamic-risk-engine.ts`) -/

/-- Linking models of `src/ili/types.ts` (no `microservice`). -/
inductive IliLinkingModel where
  | static
  | dynamic
  | runtime
deriving DecidableEq, Repr

/-- `DeveloperIntent` of `src/ili/types.ts`; `openSource` embeds the
string literal `open-source`. -/
inductive DeveloperIntent where
  | openSource
  | proprietary
  | undecided
deriving DecidableEq, Repr

/-- Provenance tag of `ProjectContext.detectedFrom` in `src/ili/types.ts`. -/
inductive DetectedFrom where
  | config
  | autoDetect
  | interactive
deriving DecidableEq, Repr

/-- `ProjectContext` of `src/ili/types.ts`; `projectLicense` is optional
(`undefined` embeds to `none`). -/
structure IliProjectContext where
  projectLicense : Option String
  intent : DeveloperIntent
  distributionModel : DistributionModel
  linkingModel : IliLinkingModel
  futureFlexibility : Bool
  detectedFrom : DetectedFrom
deriving DecidableEq, Repr

/-- Severity levels of `DynamicSeverity` in `src/ili/types.ts`. -/
inductive DynLevel where
  | safe
  | low
  | medium
  | high
  | critical
deriving DecidableEq, Repr

/-- `DynamicSeverity`; the reason/obligation/explanation prose fields are
omitted, only the graded level is kept. -/
structure DynamicSeverity where
  level : DynLevel
deriving DecidableEq, Repr

/-- Case-insensitive character-list prefix test (for the `i`-flagged
regex of `normalizeLicense`); the pattern is given lowercased. -/
def startsWithCI : List Char → List Char → Bool
  | _, [] => true
  | [], _ :: _ => false
  | c :: cs, d :: ds => c.toLower == d && startsWithCI cs ds

/-- Fueled worker for `dynNormalize`: delete every occurrence of `-only`
or `-or-later` (case-insensitive, `-only` tried first as in the regex
alternation). -/
def stripOnlyGo : Nat → List Char → List Char
  | 0, l => l
  | _ + 1, [] => []
  | fuel + 1, c :: cs =>
    if startsWithCI (c :: cs) "-only".data then
      stripOnlyGo fuel ((c :: cs).drop 5)
    else if startsWithCI (c :: cs) "-or-later".data then
      stripOnlyGo fuel ((c :: cs).drop 9)
    else
      c :: stripOnlyGo fuel cs

/-- `DynamicRiskEngine.normalizeLicense`: delete the case-insensitive
suffix patterns `-only` and `-or-later` everywhere, then trim. -/
def dynNormalize (license : String) : String :=
  jsTrim (String.mk (stripOnlyGo (license.data.length + 1) license.data))

/-- `DynamicRiskEngine.isStrongCopyleft`. -/
def dynIsStrongCopyleft (license : String) : Bool :=
  if strIncludes license "LGPL" then false
  else
    strIncludes license "AGPL" || strIncludes license "GPL-3.0" ||
    strIncludes license "GPL-2.0" || strIncludes license "GPL"

/-- `DynamicRiskEngine.isWeakCopyleft`. -/
def dynIsWeakCopyleft (license : String) : Bool :=
  strIncludes license "LGPL" || strIncludes license "MPL" ||
  strIncludes license "EPL"

/-- `DynamicRiskEngine.isPermissive`. -/
def dynIsPermissive (license : String) : Bool :=
  strIncludes license "MIT" || strIncludes license "Apache" ||
  strIncludes license "BSD" || strIncludes license "ISC" ||
  strIncludes license "Unlicense" || strIncludes license "CC0"

/-- `DynamicRiskEngine.isGPLCompatible`: the license-family table, checked
in source order on the normalized identifiers. -/
def isGPLCompatible (depLicense projectLicense : String) : Bool :=
  let dep := dynNormalize depLicense
  let proj := dynNormalize projectLicense
  if strIncludes proj "GPL-3.0" then
    strIncludes dep "GPL-3.0" || strIncludes dep "AGPL-3.0" ||
    strIncludes dep "LGPL-3.0"
  else if strIncludes proj "GPL-2.0" then
    strIncludes dep "GPL-2.0" || strIncludes dep "LGPL-2.1"
  else if strIncludes proj "AGPL" then
    strIncludes dep "GPL" || strIncludes dep "AGPL"
  else
    false

/-- `DynamicRiskEngine.proprietarySeverity`. -/
def proprietarySeverity (depLicense : String) (linkingModel : IliLinkingModel) :
    DynamicSeverity :=
  if dynIsStrongCopyleft depLicense then ⟨.critical⟩
  else if strIncludes depLicense "MPL" then ⟨.medium⟩
  else if dynIsWeakCopyleft depLicense && linkingModel == .static then ⟨.high⟩
  else if dynIsWeakCopyleft depLicense &&
          (linkingModel == .dynamic || linkingModel == .runtime) then ⟨.medium⟩
  else if dynIsPermissive depLicense then ⟨.safe⟩
  else ⟨.medium⟩

/-- `DynamicRiskEngine.openSourceSeverity` (an `undefined` or empty project
license is falsy in the `if (!projectLicense)` guard). -/
def openSourceSeverity (depLicense : String) (projectLicense : Option String) :
    DynamicSeverity :=
  match projectLicense with
  | none => ⟨.low⟩
  | some proj =>
    if proj == "" then ⟨.low⟩
    else if dynNormalize depLicense == dynNormalize proj then ⟨.safe⟩
    else if strIncludes proj "GPL" && strIncludes depLicense "Apache-2.0" then
      ⟨.high⟩
    else if isGPLCompatible depLicense proj then ⟨.safe⟩
    else if dynIsStrongCopyleft depLicense && !(isGPLCompatible depLicense proj) then
      ⟨.high⟩
    else if dynIsPermissive depLicense then ⟨.safe⟩
    else ⟨.medium⟩

/-- `DynamicRiskEngine.undecidedSeverity`. -/
def undecidedSeverity (depLicense : String) (_linkingModel : IliLinkingModel) :
    DynamicSeverity :=
  if dynIsStrongCopyleft depLicense then ⟨.medium⟩
  else if dynIsWeakCopyleft depLicense then ⟨.low⟩
  else if dynIsPermissive depLicense then ⟨.safe⟩
  else ⟨.low⟩

/-- `DynamicRiskEngine.calculateSeverity`: dispatch on the intent of the
effective context (`projectLicense ?? context.projectLicense`). -/
def calculateSeverity (projectLicense : Option String) (depLicense : String)
    (context : IliProjectContext) : DynamicSeverity :=
  let effectiveProject :=
    match projectLicense with
    | some p => some p
    | none => context.projectLicense
  match context.intent with
  | .proprietary => proprietarySeverity depLicense context.linkingModel
  | .openSource => openSourceSeverity depLicense effectiveProject
  | .undecided => undecidedSeverity depLicense context.linkingModel

/-! ### FixFirstEngine (`src/ili/fix-first-engine.ts`) -/

/-- Fix effort levels of `FixSuggestion` in `src/ili/types.ts`. -/
inductive FixEffort where
  | low
  | medium
  | high
deriving DecidableEq, Repr

/-- Fix strategies of `FixSuggestion`; `boundaryRefactor` embeds the string
literal `boundary-refactor` and `dualLicense` embeds `dual-license`. -/
inductive FixStrategy where
  | replace
  | isolate
  | remove
  | boundaryRefactor
  | upgrade
  | dualLicense
deriving DecidableEq, Repr

/-- `FixSuggestion` of `src/ili/types.ts`; description, implementation,
tradeoffs and time estimates are prose and are omitted. -/
structure FixSuggestion where
  effort : FixEffort
  strategy : FixStrategy
deriving DecidableEq, Repr

/-- The effort rank of the sort comparator in
`FixFirstEngine.generateFixes` (`{ low: 1, medium: 2, high: 3 }`). -/
def effortRank : FixEffort → Nat
  | .low => 1
  | .medium => 2
  | .high => 3

/-- The comparator of `FixFirstEngine.generateFixes` as a stable-sort
relation: ascending effort rank. -/
def fixLE (a b : FixSuggestion) : Bool :=
  effortRank a.effort ≤ effortRank b.effort

/-- `FixFirstEngine.generateFixes`: the four unconditional strategies, the
conditional upgrade and dual-license strategies, stably sorted by effort.
An `undefined` or empty project license is falsy in the
`projectLicense && ...` guard. -/
def generateFixes (_depName depLicense : String)
    (projectLicense : Option String) : List FixSuggestion :=
  let base : List FixSuggestion :=
    [⟨.low, .replace⟩, ⟨.medium, .isolate⟩, ⟨.high, .remove⟩,
     ⟨.high, .boundaryRefactor⟩]
  let withUpgrade :=
    base ++ (if strIncludes depLicense "GPL-2.0" then [⟨.low, .upgrade⟩] else [])
  let allFixes :=
    withUpgrade ++
      (if strIncludes depLicense "GPL" &&
          (match projectLicense with
           | some p => !(p == "") && !(strIncludes p "GPL")
           | none => false) then
        [⟨.low, .dualLicense⟩]
      else [])
  allFixes.mergeSort fixLE

/-! ### Id stripping and concrete scenario data

`stripConflictIds` and `stripScanIds` blank the uuid/clock fields that the
code generates afresh per scan, leaving the deterministic content; the
remaining definitions are the concrete inputs the scenario theorems and
witnesses evaluate the engine on. -/

/-- Blank the generated conflict id. -/
def stripConflictIds (c : Conflict) : Conflict := { c with id := "" }

/-- Blank the generated scan id, timestamp and conflict ids. -/
def stripScanIds (r : ScanResult) : ScanResult :=
  { r with scanId := "", timestamp := "",
           conflicts := r.conflicts.map stripConflictIds }

/-- Project configuration of scenario A: MIT project, static linking,
proprietary distribution, no strict mode. -/
def mitStaticConfig : ProjectConfig := ⟨"MIT", .proprietary, .static, false⟩

/-- Dependency tree of scenario A: a root with one GPL-3.0 dependency. -/
def scenarioATree : DependencyNode :=
  .mk "your-app" "1.0.0" (.str "MIT") 0 ["your-app"]
    [.mk "tiny-lib" "1.0.0" (.str "GPL-3.0") 1 ["your-app", "tiny-lib"] [] false]
    false

/-- The project context used by the C5 counterexample and witness. -/
def ossContext : IliProjectContext :=
  ⟨some "GPL-3.0", .openSource, .library, .static, false, .config⟩

/-- Conflict list and score used by the C7 counterexample: a single HIGH
conflict two nodes deep below the root, at risk score 55. -/
def highPathConflict : Conflict :=
  ⟨"c1", .HIGH, "leaf-a", "1.0.0", "GPL-3.0", ["root", "mid-a", "leaf-a"],
   ["root (MIT)", "mid-a (MIT)", "leaf-a (GPL-3.0) ← CONFLICT"], []⟩

/-- Conflict used by the C7 witness: one CRITICAL conflict directly below
the root, at risk score 70 (baseline penalty 30, equal to the CRITICAL
weight). -/
def critPathConflict : Conflict :=
  ⟨"c2", .CRITICAL, "tiny-lib", "1.0.0", "GPL-3.0", ["your-app", "tiny-lib"],
   ["your-app (MIT)", "tiny-lib (GPL-3.0) ← CONFLICT"], []⟩

/-- Dependency tree with one CC-BY-NC-4.0 dependency (a conflicting
license whose id does not contain GPL), for the C10 witness. -/
def ccTree : DependencyNode :=
  .mk "your-app" "1.0.0" (.str "MIT") 0 ["your-app"]
    [.mk "cc-lib" "2.0.0" (.str "CC-BY-NC-4.0") 1 ["your-app", "cc-lib"] [] false]
    false

/-- The conflict `scan` emits for `ccTree` under `mitStaticConfig`. -/
def ccConflict : Conflict :=
  ⟨"cid0", .CRITICAL, "cc-lib", "2.0.0", "CC-BY-NC-4.0",
   ["your-app", "cc-lib"],
   ["your-app (MIT)", "cc-lib (CC-BY-NC-4.0) ← CONFLICT"], []⟩

/-! ### Shared lemmas -/

/-- A prefix occurrence is an occurrence. -/
theorem containsCL_of_startsWithCL {l needle : List Char}
    (h : startsWithCL l needle = true) : containsCL l needle = true := by
  cases l with
  | nil =>
    cases needle with
    | nil => rfl
    | cons d ds => simp [startsWithCL] at h
  | cons c cs => simp [containsCL, h]

/-- An occurrence of `AGPL` contains an occurrence of `GPL`. -/
theorem containsCL_gpl_of_agpl :
    ∀ l : List Char, containsCL l ['A', 'G', 'P', 'L'] = true →
      containsCL l ['G', 'P', 'L'] = true := by
  intro l
  induction l with
  | nil => intro h; simp [containsCL] at h
  | cons c cs ih =>
    intro h
    rw [containsCL, Bool.or_eq_true] at h
    rcases h with h | h
    · rw [startsWithCL, Bool.and_eq_true] at h
      have htail : containsCL cs ['G', 'P', 'L'] = true :=
        containsCL_of_startsWithCL h.2
      simp [containsCL, htail]
    · simp [containsCL, ih h]

/-- Strings containing `AGPL` contain `GPL` (so the `license.includes`
disjunction of `suggestFixes` collapses when `GPL` is absent). -/
theorem strIncludes_gpl_of_agpl (s : String)
    (h : strIncludes s "AGPL" = true) : strIncludes s "GPL" = true := by
  have ha : "AGPL".data = ['A', 'G', 'P', 'L'] := rfl
  have hg : "GPL".data = ['G', 'P', 'L'] := rfl
  rw [strIncludes, hg]
  rw [strIncludes, ha] at h
  exact containsCL_gpl_of_agpl s.data h

/-! ### C1: totality of the compatibility verdict -/

/-- C1.  Every `isCompatible` call resolves to a result: the `compatible`
field is a genuine boolean and the severity is one of LOW, MEDIUM, HIGH,
CRITICAL, for all five inputs. -/
theorem isCompatible_total (projectLicense dependencyLicense : String)
    (linkingModel : LinkingModel) (distributionModel : DistributionModel)
    (strictMode : Bool) :
    ((isCompatible projectLicense dependencyLicense linkingModel
        distributionModel strictMode).compatible = true ∨
     (isCompatible projectLicense dependencyLicense linkingModel
        distributionModel strictMode).compatible = false) ∧
    ((isCompatible projectLicense dependencyLicense linkingModel
        distributionModel strictMode).severity = .LOW ∨
     (isCompatible projectLicense dependencyLicense linkingModel
        distributionModel strictMode).severity = .MEDIUM ∨
     (isCompatible projectLicense dependencyLicense linkingModel
        distributionModel strictMode).severity = .HIGH ∨
     (isCompatible projectLicense dependencyLicense linkingModel
        distributionModel strictMode).severity = .CRITICAL) := by
  constructor
  · cases (isCompatible projectLicense dependencyLicense linkingModel
        distributionModel strictMode).compatible <;> simp
  · cases (isCompatible projectLicense dependencyLicense linkingModel
        distributionModel strictMode).severity <;> simp

/-! ### C3: strict mode only tightens -/

/-- C3.  If strict mode accepts a pair, non-strict mode accepts it too:
a strict-mode `compatible = true` verdict can only come from an explicit
rule, which the non-strict lookup finds first as well. -/
theorem strict_mode_monotone (projectLicense dependencyLicense : String)
    (linkingModel : LinkingModel) (distributionModel : DistributionModel)
    (h : (isCompatible projectLicense dependencyLicense linkingModel
        distributionModel true).compatible = true) :
    (isCompatible projectLicense dependencyLicense linkingModel
        distributionModel false).compatible = true := by
  rw [isCompatible] at h ⊢
  cases hr : findRule (normalizeLicenseId projectLicense)
      (normalizeLicenseId dependencyLicense) linkingModel distributionModel with
  | some rule => simp only [hr] at h ⊢; exact h
  | none => simp only [hr] at h ⊢; simp at h

/-- Witness for C3 at a concrete input: MIT + MIT, static, proprietary is
accepted in strict mode, hence also without strict mode. -/
theorem strict_mode_monotone_witness :
    (isCompatible "MIT" "MIT" .static .proprietary true).compatible = true ∧
    (isCompatible "MIT" "MIT" .static .proprietary false).compatible = true :=
  ⟨by decide, strict_mode_monotone "MIT" "MIT" .static .proprietary (by decide)⟩

/-! ### C4: AGPL-3.0 under SaaS distribution -/

/-- Every matrix rule whose dependency side matches AGPL-3.0 (exactly or by
wildcard) under SaaS distribution is incompatible, with severity CRITICAL
or HIGH. -/
theorem agpl_saas_rules (rule : CompatibilityRule)
    (hmem : rule ∈ compatibilityRules)
    (hdep : rule.dependencyLicense = "AGPL-3.0" ∨ rule.dependencyLicense = "*")
    (hdist : rule.distributionModel = .saas) :
    rule.compatible = false ∧
      (rule.severity = .CRITICAL ∨ rule.severity = .HIGH) := by
  have hall : ∀ r ∈ compatibilityRules,
      (r.dependencyLicense = "AGPL-3.0" ∨ r.dependencyLicense = "*") →
      r.distributionModel = .saas →
      r.compatible = false ∧ (r.severity = .CRITICAL ∨ r.severity = .HIGH) := by
    decide
  exact hall rule hmem hdep hdist

/-- The heuristic verdict for an AGPL-3.0 dependency under SaaS
distribution: incompatible with severity MEDIUM (the strong-copyleft
CRITICAL branch only fires for proprietary distribution). -/
theorem heuristic_agpl_saas (projectLicense : String) (l : LinkingModel) :
    heuristicCheck projectLicense "AGPL-3.0" l .saas =
      ⟨false, .MEDIUM, true⟩ := by
  cases l <;> rfl

/-- C4 counterexample.  The claim demands severity CRITICAL for every
project license and linking model; for a BSD-3-Clause project with static
linking there is no explicit rule and the heuristic returns severity
MEDIUM (still incompatible). -/
theorem agpl_saas_counterexample :
    (isCompatible "BSD-3-Clause" "AGPL-3.0" .static .saas false).compatible
        = false ∧
    (isCompatible "BSD-3-Clause" "AGPL-3.0" .static .saas false).severity
        = .MEDIUM ∧
    (isCompatible "BSD-3-Clause" "AGPL-3.0" .static .saas false).severity
        ≠ .CRITICAL := by
  decide

/-- C4 amended.  For every project license and every linking model, an
AGPL-3.0 dependency under SaaS distribution (non-strict) is reported
incompatible; the severity is CRITICAL or HIGH when an explicit matrix
rule matches and MEDIUM from the heuristic fallback otherwise. -/
theorem agpl_saas_incompatible (projectLicense : String) (l : LinkingModel) :
    (isCompatible projectLicense "AGPL-3.0" l .saas false).compatible
        = false ∧
    ((isCompatible projectLicense "AGPL-3.0" l .saas false).severity
        = .CRITICAL ∨
     (isCompatible projectLicense "AGPL-3.0" l .saas false).severity
        = .HIGH ∨
     (isCompatible projectLicense "AGPL-3.0" l .saas false).severity
        = .MEDIUM) := by
  have hdep : normalizeLicenseId "AGPL-3.0" = "AGPL-3.0" := by decide
  rw [isCompatible, hdep]
  cases hr : findRule (normalizeLicenseId projectLicense) "AGPL-3.0" l .saas with
  | some rule =>
    have hprops : rule.compatible = false ∧
        (rule.severity = .CRITICAL ∨ rule.severity = .HIGH) := by
      rw [findRule] at hr
      cases hx : compatibilityRules.find? (fun r =>
          r.projectLicense == normalizeLicenseId projectLicense &&
          r.dependencyLicense == "AGPL-3.0" &&
          r.linkingModel == l &&
          r.distributionModel == DistributionModel.saas) with
      | some exactMatch =>
        rw [hx] at hr
        cases hr
        have hmem := List.mem_of_find?_eq_some hx
        have hpred := List.find?_some hx
        simp only [Bool.and_eq_true, beq_iff_eq] at hpred
        exact agpl_saas_rules rule hmem (Or.inl hpred.1.1.2) hpred.2
      | none =>
        rw [hx] at hr
        have hmem := List.mem_of_find?_eq_some hr
        have hpred := List.find?_some hr
        simp only [Bool.and_eq_true, Bool.or_eq_true, beq_iff_eq] at hpred
        exact agpl_saas_rules rule hmem hpred.1.1.2 hpred.2
    simp only []
    exact ⟨hprops.1, by rcases hprops.2 with h | h
                        · exact Or.inl h
                        · exact Or.inr (Or.inl h)⟩
  | none =>
    simp only [Bool.false_eq_true, if_false]
    rw [heuristic_agpl_saas]
    exact ⟨rfl, Or.inr (Or.inr rfl)⟩

/-! ### C5: open-source license-family compatibility -/

/-- C5 counterexample.  Per the claimed family table an AGPL project
accepts any GPL dependency, so an AGPL-3.0 project with a GPL-2.0
dependency would be `safe`; the code matches AGPL-3.0 against the GPL-3.0
family branch first and grades this pair `high`. -/
theorem ossFamily_counterexample :
    (calculateSeverity (some "AGPL-3.0") "GPL-2.0" ossContext).level
        = .high ∧
    (calculateSeverity (some "AGPL-3.0") "GPL-2.0" ossContext).level
        ≠ .safe := by
  decide

/-- C5 amended.  With intent open-source and a declared project license,
the family table grades `safe` as follows: a GPL-3.0 project accepts
AGPL-3.0 and LGPL-3.0; a GPL-2.0 project accepts LGPL-2.1; a project whose
normalized id contains AGPL but neither GPL-3.0 nor GPL-2.0 (for example
plain `AGPL`) accepts GPL and AGPL dependencies.  An AGPL-3.0 project
contains `GPL-3.0` as a substring and is therefore matched by the GPL-3.0
branch first: it accepts GPL-3.0/AGPL-3.0/LGPL-3.0 dependencies but grades
a GPL-2.0 dependency `high`, not `safe`. -/
theorem ossFamily_table (pl : Option String) (dm : DistributionModel)
    (lm : IliLinkingModel) (ff : Bool) (df : DetectedFrom) :
    (calculateSeverity (some "GPL-3.0") "AGPL-3.0"
        ⟨pl, .openSource, dm, lm, ff, df⟩).level = .safe ∧
    (calculateSeverity (some "GPL-3.0") "LGPL-3.0"
        ⟨pl, .openSource, dm, lm, ff, df⟩).level = .safe ∧
    (calculateSeverity (some "GPL-2.0") "LGPL-2.1"
        ⟨pl, .openSource, dm, lm, ff, df⟩).level = .safe ∧
    (calculateSeverity (some "AGPL-3.0") "GPL-3.0"
        ⟨pl, .openSource, dm, lm, ff, df⟩).level = .safe ∧
    (calculateSeverity (some "AGPL-3.0") "AGPL-3.0"
        ⟨pl, .openSource, dm, lm, ff, df⟩).level = .safe ∧
    (calculateSeverity (some "AGPL-3.0") "LGPL-3.0"
        ⟨pl, .openSource, dm, lm, ff, df⟩).level = .safe ∧
    (calculateSeverity (some "AGPL") "GPL-2.0"
        ⟨pl, .openSource, dm, lm, ff, df⟩).level = .safe ∧
    (calculateSeverity (some "AGPL") "AGPL-3.0"
        ⟨pl, .openSource, dm, lm, ff, df⟩).level = .safe ∧
    (calculateSeverity (some "AGPL-3.0") "GPL-2.0"
        ⟨pl, .openSource, dm, lm, ff, df⟩).level = .high :=
  ⟨rfl, rfl, rfl, rfl, rfl, rfl, rfl, rfl, rfl⟩

/-! ### C2: risk score aggregation and scenario A -/

/-- The collected node list always contains at least the root, so the
`totalDeps === 0` guard of `calculateRiskScore` never fires inside `scan`. -/
theorem collectNodes_length_ne_zero (root : DependencyNode) :
    ((collectNodes root).length == 0) = false := by
  cases root with
  | mk n v l d p c dv => simp [collectNodes]

/-- The subtraction loop of `calculateRiskScore` computes the start value
minus the sum of per-conflict penalties. -/
theorem foldl_riskPenalty (l : List Conflict) :
    ∀ a : Int, l.foldl (fun s c => s - riskPenalty c.severity) a =
      a - (l.map (fun c => riskPenalty c.severity)).sum := by
  induction l with
  | nil => simp
  | cons c cs ih =>
    intro a
    simp only [List.foldl_cons, List.map_cons, List.sum_cons, ih]
    omega

/-- C2.  The aggregate risk score of every scan equals 100 minus the sum of
the fixed per-severity penalties of its conflicts, clamped into [0, 100];
and scenario A (MIT project, single GPL-3.0 dependency, static linking,
proprietary distribution) yields an incompatible CRITICAL verdict, exactly
one conflict and risk score 70. -/
theorem risk_score_formula_and_scenarioA :
    (∀ (config : ProjectConfig) (altNames : List String)
        (root : DependencyNode) (sid ts : String) (sup : Nat → String),
      (scan config altNames root sid ts sup).riskScore =
        max 0 (min 100 (100 -
          ((scan config altNames root sid ts sup).conflicts.map
            (fun c => riskPenalty c.severity)).sum))) ∧
    (isCompatible "MIT" "GPL-3.0" .static .proprietary false).compatible
        = false ∧
    (isCompatible "MIT" "GPL-3.0" .static .proprietary false).severity
        = .CRITICAL ∧
    (scan mitStaticConfig [] scenarioATree "scan-1" "t0"
        (fun _ => "cid0")).conflicts.length = 1 ∧
    (scan mitStaticConfig [] scenarioATree "scan-1" "t0"
        (fun _ => "cid0")).summary.conflicts = 1 ∧
    ((scan mitStaticConfig [] scenarioATree "scan-1" "t0"
        (fun _ => "cid0")).conflicts.map (fun c => c.severity)) = [.CRITICAL] ∧
    (scan mitStaticConfig [] scenarioATree "scan-1" "t0"
        (fun _ => "cid0")).riskScore = 70 := by
  refine ⟨?_, by decide, by decide, by decide, by decide, by decide, by decide⟩
  intro config altNames root sid ts sup
  simp only [scan, calculateRiskScore, collectNodes_length_ne_zero,
    Bool.false_eq_true, if_false, foldl_riskPenalty]

/-! ### C8: fix generation -/

/-- The effort comparator is transitive. -/
theorem fixLE_trans : ∀ a b c : FixSuggestion,
    fixLE a b = true → fixLE b c = true → fixLE a c = true := by
  intro a b c hab hbc
  simp only [fixLE, decide_eq_true_eq] at *
  omega

/-- The effort comparator is total. -/
theorem fixLE_total : ∀ a b : FixSuggestion,
    (fixLE a b || fixLE b a) = true := by
  intro a b
  simp only [fixLE, Bool.or_eq_true, decide_eq_true_eq]
  omega

/-- Membership characterization of `generateFixes`: the four unconditional
strategies, plus the upgrade entry exactly under its GPL-2.0 guard, plus
the dual-license entry exactly under its guard. -/
theorem mem_generateFixes (x : FixSuggestion) (dn dl : String)
    (pl : Option String) :
    x ∈ generateFixes dn dl pl ↔
      (x ∈ ([⟨.low, .replace⟩, ⟨.medium, .isolate⟩, ⟨.high, .remove⟩,
             ⟨.high, .boundaryRefactor⟩] : List FixSuggestion) ∨
       (x = ⟨.low, .upgrade⟩ ∧ strIncludes dl "GPL-2.0" = true) ∨
       (x = ⟨.low, .dualLicense⟩ ∧
        (strIncludes dl "GPL" &&
          (match pl with
           | some p => !(p == "") && !(strIncludes p "GPL")
           | none => false)) = true)) := by
  simp only [generateFixes]
  rw [(List.mergeSort_perm _ fixLE).mem_iff]
  cases hu : strIncludes dl "GPL-2.0" <;>
    cases hd : (strIncludes dl "GPL" &&
      (match pl with
       | some p => !(p == "") && !(strIncludes p "GPL")
       | none => false)) <;>
    simp [hu, hd, List.mem_append, or_assoc]

/-- C8.  For every package name, dependency license and optional project
license, `generateFixes` returns a non-empty list sorted ascending by
effort rank; it always contains replace (low), isolate (medium), remove
(high) and boundary-refactor (high); it contains the upgrade entry (low)
exactly when the dependency license contains GPL-2.0, and the dual-license
entry (low) exactly when the dependency license contains GPL and the
project license is declared (a non-empty string) and does not contain
GPL. -/
theorem generateFixes_spec (depName depLicense : String)
    (projectLicense : Option String) :
    generateFixes depName depLicense projectLicense ≠ [] ∧
    (generateFixes depName depLicense projectLicense).Pairwise
      (fun a b => effortRank a.effort ≤ effortRank b.effort) ∧
    (⟨.low, .replace⟩ : FixSuggestion) ∈
      generateFixes depName depLicense projectLicense ∧
    (⟨.medium, .isolate⟩ : FixSuggestion) ∈
      generateFixes depName depLicense projectLicense ∧
    (⟨.high, .remove⟩ : FixSuggestion) ∈
      generateFixes depName depLicense projectLicense ∧
    (⟨.high, .boundaryRefactor⟩ : FixSuggestion) ∈
      generateFixes depName depLicense projectLicense ∧
    ((⟨.low, .upgrade⟩ : FixSuggestion) ∈
        generateFixes depName depLicense projectLicense ↔
      strIncludes depLicense "GPL-2.0" = true) ∧
    ((⟨.low, .dualLicense⟩ : FixSuggestion) ∈
        generateFixes depName depLicense projectLicense ↔
      (strIncludes depLicense "GPL" = true ∧
       ∃ p, projectLicense = some p ∧ p ≠ "" ∧
         strIncludes p "GPL" = false)) := by
  have hrepl : (⟨.low, .replace⟩ : FixSuggestion) ∈
      generateFixes depName depLicense projectLicense := by
    rw [mem_generateFixes]; simp
  refine ⟨List.ne_nil_of_mem hrepl, ?_, hrepl, ?_, ?_, ?_, ?_, ?_⟩
  · have hsorted : ∀ L : List FixSuggestion,
        (L.mergeSort fixLE).Pairwise
          (fun a b => effortRank a.effort ≤ effortRank b.effort) := by
      intro L
      exact (List.sorted_mergeSort fixLE_trans fixLE_total L).imp
        (fun h => by simpa only [fixLE, decide_eq_true_eq] using h)
    simp only [generateFixes]
    exact hsorted _
  · rw [mem_generateFixes]; simp
  · rw [mem_generateFixes]; simp
  · rw [mem_generateFixes]; simp
  · rw [mem_generateFixes]
    cases hu : strIncludes depLicense "GPL-2.0" <;> simp [hu]
  · rw [mem_generateFixes]
    cases projectLicense with
    | none => simp
    | some p =>
      cases hg : strIncludes depLicense "GPL" <;>
        cases he : p == "" <;>
        cases hpg : strIncludes p "GPL" <;>
        simp [hg, he, hpg] <;>
        simp_all [beq_iff_eq]

/-- Witness for C8: a GPL-2.0 dependency in a non-GPL project gets the
low-effort upgrade entry. -/
theorem generateFixes_spec_witness :
    (⟨.low, .upgrade⟩ : FixSuggestion) ∈
      generateFixes "pkg" "GPL-2.0" (some "MIT") :=
  (generateFixes_spec "pkg" "GPL-2.0"
    (some "MIT")).2.2.2.2.2.2.1.mpr (by decide)

/-! ### C6: alternative-license (OR) evaluation -/

/-- If some alternative is compatible, the scanning loop of `checkNode`
returns no conflict (early `return null`), whatever has been accumulated. -/
theorem checkLicensesAux_none_of_ex (config : ProjectConfig) :
    ∀ (lics : List String) (best : Option CompatibilityResult),
      (∃ l ∈ lics, (nodeLicenseResult config l).compatible = true) →
      checkLicensesAux config lics best = none := by
  intro lics
  induction lics with
  | nil => intro best h; simp at h
  | cons l ls ih =>
    intro best h
    cases hc : (nodeLicenseResult config l).compatible with
    | true => simp [checkLicensesAux, hc]
    | false =>
      have hex : ∃ x ∈ ls, (nodeLicenseResult config x).compatible = true := by
        rcases h with ⟨x, hx, hcx⟩
        rcases List.mem_cons.mp hx with rfl | hx2
        · rw [hc] at hcx; cases hcx
        · exact ⟨x, hx2, hcx⟩
      cases best with
      | none =>
        simp only [checkLicensesAux, hc, Bool.false_eq_true, if_false]
        exact ih _ hex
      | some b =>
        simp only [checkLicensesAux, hc, Bool.false_eq_true, if_false]
        split
        · exact ih _ hex
        · exact ih _ hex

/-- Accumulator invariant of the scanning loop: when every remaining
alternative is incompatible, the loop returns a result at least as severe
as the accumulator and as every remaining alternative, and that result is
the accumulator or one of the alternatives. -/
theorem checkLicensesAux_acc (config : ProjectConfig) :
    ∀ (lics : List String) (b : CompatibilityResult),
      (∀ l ∈ lics, (nodeLicenseResult config l).compatible = false) →
      ∃ r, checkLicensesAux config lics (some b) = some r ∧
        severityWeight b.severity ≤ severityWeight r.severity ∧
        (∀ l ∈ lics,
          severityWeight (nodeLicenseResult config l).severity ≤
            severityWeight r.severity) ∧
        (r = b ∨ ∃ l ∈ lics, nodeLicenseResult config l = r) := by
  intro lics
  induction lics with
  | nil =>
    intro b _
    exact ⟨b, rfl, le_refl _, by simp, Or.inl rfl⟩
  | cons l ls ih =>
    intro b h
    have hc : (nodeLicenseResult config l).compatible = false :=
      h l (List.mem_cons_self l ls)
    have hls : ∀ x ∈ ls, (nodeLicenseResult config x).compatible = false :=
      fun x hx => h x (List.mem_cons_of_mem _ hx)
    simp only [checkLicensesAux, hc, Bool.false_eq_true, if_false]
    by_cases hw : severityWeight (nodeLicenseResult config l).severity >
        severityWeight b.severity
    · rw [if_pos hw]
      rcases ih (nodeLicenseResult config l) hls with ⟨r, hr, hbr, hall, hwit⟩
      refine ⟨r, hr, le_trans (le_of_lt hw) hbr, ?_, ?_⟩
      · intro x hx
        rcases List.mem_cons.mp hx with rfl | hx2
        · exact hbr
        · exact hall x hx2
      · rcases hwit with h1 | ⟨y, hy, hyr⟩
        · exact Or.inr ⟨l, List.mem_cons_self _ _, h1.symm⟩
        · exact Or.inr ⟨y, List.mem_cons_of_mem _ hy, hyr⟩
    · rw [if_neg hw]
      rcases ih b hls with ⟨r, hr, hbr, hall, hwit⟩
      refine ⟨r, hr, hbr, ?_, ?_⟩
      · intro x hx
        rcases List.mem_cons.mp hx with rfl | hx2
        · exact le_trans (not_lt.mp hw) hbr
        · exact hall x hx2
      · rcases hwit with h1 | ⟨y, hy, hyr⟩
        · exact Or.inl h1
        · exact Or.inr ⟨y, List.mem_cons_of_mem _ hy, hyr⟩

/-- C6.  A node with an alternative (OR) license set produces no conflict
when at least one alternative is compatible; when every alternative is
incompatible, the emitted conflict carries the worst outcome: its severity
weight dominates every alternative and equals the severity of one of
them (severity weights order CRITICAL above HIGH above MEDIUM above LOW). -/
theorem checkNode_alternatives (config : ProjectConfig)
    (altNames : List String) (name version : String) (alts : List String)
    (depth : Nat) (path : List String) (children : List DependencyNode)
    (dev : Bool) :
    ((∃ l ∈ alts, (nodeLicenseResult config l).compatible = true) →
      checkNode config altNames
        (.mk name version (.arr alts) depth path children dev) = none) ∧
    (alts ≠ [] →
      (∀ l ∈ alts, (nodeLicenseResult config l).compatible = false) →
      ∃ c, checkNode config altNames
          (.mk name version (.arr alts) depth path children dev) = some c ∧
        (∀ l ∈ alts,
          severityWeight (nodeLicenseResult config l).severity ≤
            severityWeight c.severity) ∧
        (∃ l ∈ alts, (nodeLicenseResult config l).severity = c.severity)) := by
  constructor
  · intro h
    simp only [checkNode, DependencyNode.license, NodeLicense.alternatives]
    rw [checkLicensesAux_none_of_ex config alts none h]
  · intro hne hall
    cases alts with
    | nil => exact absurd rfl hne
    | cons l ls =>
      have hc : (nodeLicenseResult config l).compatible = false :=
        hall l (List.mem_cons_self l ls)
      have hls : ∀ x ∈ ls, (nodeLicenseResult config x).compatible = false :=
        fun x hx => hall x (List.mem_cons_of_mem _ hx)
      rcases checkLicensesAux_acc config ls (nodeLicenseResult config l) hls
        with ⟨r, hr, hbr, hall2, hwit⟩
      refine ⟨createConflict config
          (.mk name version (.arr (l :: ls)) depth path children dev)
          r.severity altNames, ?_, ?_, ?_⟩
      · simp only [checkNode, DependencyNode.license, NodeLicense.alternatives,
          checkLicensesAux, hc, Bool.false_eq_true, if_false]
        rw [hr]
      · intro x hx
        have hsev : (createConflict config
            (.mk name version (.arr (l :: ls)) depth path children dev)
            r.severity altNames).severity = r.severity := rfl
        rw [hsev]
        rcases List.mem_cons.mp hx with rfl | hx2
        · exact hbr
        · exact hall2 x hx2
      · have hsev : (createConflict config
            (.mk name version (.arr (l :: ls)) depth path children dev)
            r.severity altNames).severity = r.severity := rfl
        rw [hsev]
        rcases hwit with h1 | ⟨y, hy, hyr⟩
        · exact ⟨l, List.mem_cons_self _ _, congrArg CompatibilityResult.severity h1.symm⟩
        · exact ⟨y, List.mem_cons_of_mem _ hy, congrArg CompatibilityResult.severity hyr⟩

/-- Witness for C6 at a concrete node: both alternatives EPL-2.0 and
GPL-3.0 are incompatible with an MIT proprietary static project, and the
emitted conflict carries the CRITICAL outcome of the GPL-3.0 alternative. -/
theorem checkNode_alternatives_witness :
    ∃ c, checkNode mitStaticConfig []
        (.mk "dual-lib" "1.0.0" (.arr ["EPL-2.0", "GPL-3.0"]) 1
          ["your-app", "dual-lib"] [] false) = some c ∧
      (∀ l ∈ ["EPL-2.0", "GPL-3.0"],
        severityWeight (nodeLicenseResult mitStaticConfig l).severity ≤
          severityWeight c.severity) ∧
      (∃ l ∈ ["EPL-2.0", "GPL-3.0"],
        (nodeLicenseResult mitStaticConfig l).severity = c.severity) :=
  (checkNode_alternatives mitStaticConfig [] "dual-lib" "1.0.0"
    ["EPL-2.0", "GPL-3.0"] 1 ["your-app", "dual-lib"] [] false).2
    (by decide) (by decide)

/-! ### C7: causal risk contribution -/

/-- Rounding is monotone. -/
theorem round_mono_q {x y : ℚ} (h : x ≤ y) : round x ≤ round y := by
  rw [round_eq, round_eq]
  exact Int.floor_le_floor (by linarith)

/-- Two-decimal rounding keeps values at most 100. -/
theorem round2_le_100 {q : ℚ} (h : q ≤ 100) : round2 q ≤ 100 := by
  rw [round2, div_le_iff₀ (by norm_num : (0:ℚ) < 100)]
  have h1 : round (q * 100) ≤ round ((10000 : ℚ)) := round_mono_q (by linarith)
  have h2 : round ((10000 : ℚ)) = 10000 := by norm_num
  calc ((round (q * 100) : ℤ) : ℚ)
      ≤ ((10000 : ℤ) : ℚ) := by exact_mod_cast le_trans h1 (le_of_eq h2)
    _ = 100 * 100 := by norm_num

/-- Two-decimal rounding fixes 100. -/
theorem round2_hundred : round2 (100 : ℚ) = 100 := by
  rw [round2]; norm_num

/-- Every member of `analyze` is built by `mkImpact` from an entry of the
accumulation table. -/
theorem mem_analyze {conflicts : List Conflict} {score : Int}
    {imp : CausalImpact} (h : imp ∈ analyze conflicts score) :
    ∃ e ∈ accumulateImpacts conflicts,
      imp = mkImpact (max 0 (100 - score)) score e := by
  rw [analyze] at h
  split at h
  · cases h
  · rw [(List.mergeSort_perm _ impactLE).mem_iff] at h
    rcases List.mem_map.mp h with ⟨e, he, rfl⟩
    exact ⟨e, he, rfl⟩

/-- `updateEntry` keeps every table weight at or above one severity
weight when the incoming table does. -/
theorem updateEntry_weight_ge (sev : Severity) :
    ∀ (table : List (String × CausalAcc)) (pkg : String),
      (∀ e ∈ table, causalSeverityWeight sev ≤ e.2.weight) →
      ∀ e ∈ updateEntry sev table pkg, causalSeverityWeight sev ≤ e.2.weight := by
  intro table
  induction table with
  | nil =>
    intro pkg _ e he
    simp only [updateEntry, List.mem_singleton] at he
    subst he
    simp [CausalAcc.bump]
  | cons hd tl ih =>
    intro pkg h e he
    rw [updateEntry] at he
    by_cases hp : (hd.1 == pkg) = true
    · rw [if_pos hp] at he
      rcases List.mem_cons.mp he with rfl | he2
      · have := h hd (List.mem_cons_self _ _)
        simp only [CausalAcc.bump]
        omega
      · exact h e (List.mem_cons_of_mem _ he2)
    · rw [if_neg hp] at he
      rcases List.mem_cons.mp he with rfl | he2
      · exact h hd (List.mem_cons_self _ _)
      · exact ih pkg (fun x hx => h x (List.mem_cons_of_mem _ hx)) e he2

/-- Folding `updateEntry` over a node list keeps every weight at or above
the severity weight. -/
theorem foldl_updateEntry_weight_ge (sev : Severity) :
    ∀ (nodes : List String) (table : List (String × CausalAcc)),
      (∀ e ∈ table, causalSeverityWeight sev ≤ e.2.weight) →
      ∀ e ∈ nodes.foldl (updateEntry sev) table,
        causalSeverityWeight sev ≤ e.2.weight := by
  intro nodes
  induction nodes with
  | nil => intro table h e he; exact h e he
  | cons n ns ih =>
    intro table h e he
    rw [List.foldl_cons] at he
    exact ih (updateEntry sev table n) (updateEntry_weight_ge sev table n h) e he

/-- Severity weights are positive. -/
theorem causalSeverityWeight_pos (sev : Severity) :
    0 < causalSeverityWeight sev := by
  cases sev <;> simp [causalSeverityWeight]

/-- C7 counterexample.  At risk score 55 the baseline penalty is 45 and
leaf-a accumulates weight 15, so the claimed exact value is
min(100, 100 x 15/45) = 100/3; the engine reports the two-decimal rounding
3333/100, which differs.  (The first conjunct exhibits the accumulated
weight, the second the reported contribution.) -/
theorem riskContribution_rounding_counterexample :
    (accumulateImpacts [highPathConflict]).lookup "leaf-a" =
      some ⟨15, 1, 0, 1, 0, 0⟩ ∧
    (∃ imp ∈ analyze [highPathConflict] 55,
      imp.packageName = "leaf-a" ∧ imp.riskContribution = 3333 / 100) ∧
    ((3333 : ℚ) / 100 ≠ min 100 ((15 : ℚ) / 45 * 100)) := by
  refine ⟨by decide, ?_, ?_⟩
  · have hmax : (max 0 (100 - 55) : Int) = 45 := by decide
    have htable : accumulateImpacts [highPathConflict] =
        [("mid-a", ⟨15, 1, 0, 1, 0, 0⟩), ("leaf-a", ⟨15, 1, 0, 1, 0, 0⟩)] := by
      decide
    refine ⟨mkImpact 45 55 ("leaf-a", ⟨15, 1, 0, 1, 0, 0⟩), ?_, rfl, ?_⟩
    · rw [analyze]
      split
      · next hcond =>
        rw [Bool.or_eq_true] at hcond
        rcases hcond with hcond | hcond
        · simp at hcond
        · rw [hmax] at hcond; cases hcond
      · rw [(List.mergeSort_perm _ impactLE).mem_iff, hmax, htable]
        exact List.mem_map.mpr
          ⟨("leaf-a", ⟨15, 1, 0, 1, 0, 0⟩), by simp, rfl⟩
    · show round2 (if (45 : Int) == 0 then 0
        else min 100 (((15 : Nat) : ℚ) / ((45 : Int) : ℚ) * 100)) = 3333 / 100
      norm_num
      rw [round2]
      norm_num
      rw [show round ((10000 : ℚ) / 3) = 3333 by rw [round_eq]; norm_num]
      norm_num
  · intro h
    rw [min_eq_right (by norm_num : (15 : ℚ) / 45 * 100 ≤ 100)] at h
    norm_num at h

/-- C7 amended.  Every reported `riskContribution` is the two-decimal
rounding of min(100, 100 x accumulatedWeight / baselinePenalty) and hence
never exceeds 100, even when one node accumulates many identical
conflicts; and when a single conflict has severity weight equal to the
baseline penalty 100 - currentRiskScore, every reported contribution for
that scan equals exactly 100. -/
theorem riskContribution_bounds :
    (∀ (conflicts : List Conflict) (score : Int) (imp : CausalImpact),
      imp ∈ analyze conflicts score → imp.riskContribution ≤ 100) ∧
    (∀ (c : Conflict) (score : Int),
      (causalSeverityWeight c.severity : Int) = 100 - score →
      ∀ imp ∈ analyze [c] score, imp.riskContribution = 100) := by
  constructor
  · intro conflicts score imp h
    rcases mem_analyze h with ⟨e, _, rfl⟩
    show round2 (if ((max 0 (100 - score) : Int) == 0) = true then 0
      else min 100 ((e.2.weight : ℚ) / ((max 0 (100 - score) : Int) : ℚ) * 100)) ≤ 100
    split
    · rw [round2]; norm_num
    · exact round2_le_100 (min_le_left _ _)
  · intro c score hw imp h
    have hpos : 0 < causalSeverityWeight c.severity := causalSeverityWeight_pos _
    have hmax : (max 0 (100 - score) : Int) = (causalSeverityWeight c.severity : Int) := by
      rw [← hw]; omega
    rcases mem_analyze h with ⟨e, he, rfl⟩
    have hweight : causalSeverityWeight c.severity ≤ e.2.weight := by
      have hacc : accumulateImpacts [c] =
          (extractPathNodes c).foldl (updateEntry c.severity) [] := by
        simp [accumulateImpacts]
      rw [hacc] at he
      exact foldl_updateEntry_weight_ge c.severity (extractPathNodes c) []
        (by simp) e he
    show round2 (if ((max 0 (100 - score) : Int) == 0) = true then 0
      else min 100 ((e.2.weight : ℚ) / ((max 0 (100 - score) : Int) : ℚ) * 100)) = 100
    rw [hmax]
    have hne : (((causalSeverityWeight c.severity : Int)) == 0) = false := by
      simp only [beq_eq_false_iff_ne, ne_eq, Int.natCast_eq_zero]
      omega
    rw [hne]
    simp only [Bool.false_eq_true, if_false]
    have hq : (0 : ℚ) < ((causalSeverityWeight c.severity : Int) : ℚ) := by
      push_cast
      exact_mod_cast hpos
    have hge : (100 : ℚ) ≤
        (e.2.weight : ℚ) / ((causalSeverityWeight c.severity : Int) : ℚ) * 100 := by
      have h1 : (1 : ℚ) ≤
          (e.2.weight : ℚ) / ((causalSeverityWeight c.severity : Int) : ℚ) := by
        rw [le_div_iff₀ hq, one_mul]
        push_cast
        exact_mod_cast hweight
      nlinarith
    rw [min_eq_left hge, round2_hundred]

/-- Witness for C7: with one CRITICAL conflict at score 70, the weight 30
equals the baseline penalty, the table holds tiny-lib with weight 30, and
the reported contribution of its impact record is exactly 100. -/
theorem riskContribution_bounds_witness :
    (causalSeverityWeight critPathConflict.severity : Int) = 100 - 70 ∧
    mkImpact 30 70 ("tiny-lib", ⟨30, 1, 1, 0, 0, 0⟩) ∈
      analyze [critPathConflict] 70 ∧
    (mkImpact 30 70 ("tiny-lib", ⟨30, 1, 1, 0, 0, 0⟩)).riskContribution = 100 := by
  have hmax : (max 0 (100 - 70) : Int) = 30 := by decide
  have htable : accumulateImpacts [critPathConflict] =
      [("tiny-lib", ⟨30, 1, 1, 0, 0, 0⟩)] := by decide
  have hmem : mkImpact 30 70 ("tiny-lib", ⟨30, 1, 1, 0, 0, 0⟩) ∈
      analyze [critPathConflict] 70 := by
    rw [analyze]
    split
    · next hcond =>
      rw [Bool.or_eq_true] at hcond
      rcases hcond with hcond | hcond
      · simp at hcond
      · rw [hmax] at hcond; cases hcond
    · rw [(List.mergeSort_perm _ impactLE).mem_iff, hmax, htable]
      exact List.mem_map.mpr ⟨("tiny-lib", ⟨30, 1, 1, 0, 0, 0⟩), by simp, rfl⟩
  exact ⟨by decide, hmem,
    riskContribution_bounds.2 critPathConflict 70 (by decide) _ hmem⟩

/-! ### C9: determinism of scan and causal analysis -/

/-- Mapping any id-insensitive function over the id-attached conflicts is
independent of the id supply. -/
theorem attachIds_map {β : Type} (f : Conflict → β)
    (hf : ∀ (c : Conflict) (s : String), f { c with id := s } = f c)
    (sup : Nat → String) :
    ∀ (i : Nat) (cs : List Conflict),
      (attachIds sup i cs).map f = cs.map f := by
  intro i cs
  induction cs generalizing i with
  | nil => rfl
  | cons c rest ih => simp [attachIds, hf, ih]

/-- Attaching ids preserves the number of conflicts. -/
theorem attachIds_length (sup : Nat → String) :
    ∀ (i : Nat) (cs : List Conflict),
      (attachIds sup i cs).length = cs.length := by
  intro i cs
  induction cs generalizing i with
  | nil => rfl
  | cons c rest ih => simp [attachIds, ih]

/-- Counting over id-insensitive predicates is independent of the id
supply. -/
theorem attachIds_countP (p : Conflict → Bool)
    (hp : ∀ (c : Conflict) (s : String), p { c with id := s } = p c)
    (sup : Nat → String) :
    ∀ (i : Nat) (cs : List Conflict),
      (attachIds sup i cs).countP p = cs.countP p := by
  intro i cs
  induction cs generalizing i with
  | nil => rfl
  | cons c rest ih => simp [attachIds, List.countP_cons, hp, ih]

/-- The risk-score fold ignores conflict ids. -/
theorem attachIds_foldl_penalty (sup : Nat → String) :
    ∀ (i : Nat) (cs : List Conflict) (a : Int),
      (attachIds sup i cs).foldl (fun s c => s - riskPenalty c.severity) a =
        cs.foldl (fun s c => s - riskPenalty c.severity) a := by
  intro i cs
  induction cs generalizing i with
  | nil => intro a; rfl
  | cons c rest ih => intro a; simp [attachIds, List.foldl_cons, ih]

/-- `calculateRiskScore` ignores conflict ids. -/
theorem calculateRiskScore_attachIds (sup : Nat → String) (i : Nat)
    (cs : List Conflict) (n : Nat) :
    calculateRiskScore (attachIds sup i cs) n = calculateRiskScore cs n := by
  rw [calculateRiskScore, calculateRiskScore, attachIds_foldl_penalty]

/-- Replacing the conflict id leaves the extracted path nodes unchanged. -/
theorem extractPathNodes_setId (c : Conflict) (s : String) :
    extractPathNodes { c with id := s } = extractPathNodes c := rfl

/-- Per-severity counting ignores conflict ids. -/
theorem attachIds_countP_sev (sup : Nat → String) (i : Nat)
    (cs : List Conflict) (X : Severity) :
    (attachIds sup i cs).countP (fun c => c.severity == X) =
      cs.countP (fun c => c.severity == X) :=
  attachIds_countP (fun c => c.severity == X) (fun _ _ => rfl) sup i cs

/-- Id stripping erases whichever ids were attached. -/
theorem attachIds_map_strip (sup : Nat → String) (i : Nat)
    (cs : List Conflict) :
    (attachIds sup i cs).map stripConflictIds = cs.map stripConflictIds :=
  attachIds_map stripConflictIds (fun _ _ => rfl) sup i cs

/-- The causal accumulation ignores conflict ids. -/
theorem accumulateImpacts_attachIds (sup : Nat → String) :
    ∀ (i : Nat) (cs : List Conflict),
      accumulateImpacts (attachIds sup i cs) = accumulateImpacts cs := by
  have hgen : ∀ (cs : List Conflict) (i : Nat)
      (table : List (String × CausalAcc)),
      (attachIds sup i cs).foldl
        (fun t conflict =>
          (extractPathNodes conflict).foldl (updateEntry conflict.severity) t)
        table =
      cs.foldl
        (fun t conflict =>
          (extractPathNodes conflict).foldl (updateEntry conflict.severity) t)
        table := by
    intro cs
    induction cs with
    | nil => intro i table; rfl
    | cons c rest ih =>
      intro i table
      simp only [attachIds, List.foldl_cons]
      rw [show extractPathNodes { c with id := sup i } = extractPathNodes c
          from rfl]
      exact ih (i + 1) _
  intro i cs
  simp only [accumulateImpacts]
  exact hgen cs i []

/-- `analyze` ignores conflict ids. -/
theorem analyze_attachIds (sup : Nat → String) (i : Nat)
    (cs : List Conflict) (score : Int) :
    analyze (attachIds sup i cs) score = analyze cs score := by
  simp only [analyze, attachIds_length, accumulateImpacts_attachIds]

/-- C9.  Scanning is deterministic modulo the externally generated ids:
two scans of the same tree and configuration with different scan ids,
timestamps and conflict-id supplies agree after id stripping, and the
causal-impact analysis of their conflict lists is identical (so the
ranking cannot depend on the generated ids). -/
theorem scan_deterministic (config : ProjectConfig) (altNames : List String)
    (root : DependencyNode) (sid1 ts1 : String) (sup1 : Nat → String)
    (sid2 ts2 : String) (sup2 : Nat → String) :
    stripScanIds (scan config altNames root sid1 ts1 sup1) =
      stripScanIds (scan config altNames root sid2 ts2 sup2) ∧
    (∀ score : Int,
      analyze (scan config altNames root sid1 ts1 sup1).conflicts score =
        analyze (scan config altNames root sid2 ts2 sup2).conflicts score) := by
  constructor
  · simp only [scan, stripScanIds, calculateRiskScore_attachIds,
      attachIds_length, attachIds_countP_sev, attachIds_map_strip]
  · intro score
    simp only [scan]
    rw [analyze_attachIds, analyze_attachIds]

/-! ### C10: fixes are seeded only for GPL-family licenses -/

/-- Every id-attached conflict comes from an underlying conflict with the
same non-id fields. -/
theorem mem_attachIds {sup : Nat → String} {c : Conflict} :
    ∀ {i : Nat} {cs : List Conflict}, c ∈ attachIds sup i cs →
      ∃ c0 ∈ cs, ∃ s, c = { c0 with id := s } := by
  intro i cs
  induction cs generalizing i with
  | nil => intro h; cases h
  | cons c0 rest ih =>
    intro h
    rcases List.mem_cons.mp h with rfl | h2
    · exact ⟨c0, List.mem_cons_self _ _, sup i, rfl⟩
    · rcases ih h2 with ⟨c1, hc1, s, rfl⟩
      exact ⟨c1, List.mem_cons_of_mem _ hc1, s, rfl⟩

/-- `suggestFixes` returns nothing when the license contains no GPL
occurrence (and hence no AGPL occurrence either). -/
theorem suggestFixes_eq_nil (config : ProjectConfig) (node : DependencyNode)
    (license : String) (altNames : List String)
    (h : strIncludes license "GPL" = false) :
    suggestFixes config node license altNames = [] := by
  have hA : strIncludes license "AGPL" = false := by
    cases hA : strIncludes license "AGPL"
    · rfl
    · rw [strIncludes_gpl_of_agpl license hA] at h; cases h
  simp [suggestFixes, h, hA]

/-- C10.  Every conflict emitted by `scan` whose dependency license id does
not contain `GPL` carries an empty candidate-fix list: replace, isolate
and relicense fixes are seeded only for GPL-family licenses. -/
theorem scan_nonGPL_fixes_empty (config : ProjectConfig)
    (altNames : List String) (root : DependencyNode) (sid ts : String)
    (sup : Nat → String) (c : Conflict)
    (hc : c ∈ (scan config altNames root sid ts sup).conflicts)
    (h : strIncludes c.depLicense "GPL" = false) :
    c.fixes = [] := by
  simp only [scan] at hc
  rcases mem_attachIds hc with ⟨c0, hc0, s, rfl⟩
  rcases List.mem_filterMap.mp hc0 with ⟨node, _, hsome⟩
  split at hsome
  · cases hsome
  · split at hsome
    · cases hsome
    · rw [checkNode] at hsome
      cases hbest : checkLicensesAux config node.license.alternatives none with
      | none => rw [hbest] at hsome; cases hsome
      | some best =>
        rw [hbest] at hsome
        have hc0eq : c0 = createConflict config node best.severity altNames :=
          (Option.some.injEq _ _ ▸ hsome).symm
        subst hc0eq
        exact suggestFixes_eq_nil config node node.license.first altNames h

/-- Witness for C10: scanning a tree with a CC-BY-NC-4.0 dependency under
an MIT proprietary static project emits exactly the expected conflict,
whose license id contains no GPL and whose fix list is empty. -/
theorem scan_nonGPL_fixes_empty_witness :
    ccConflict ∈ (scan mitStaticConfig [] ccTree "s1" "t1"
      (fun _ => "cid0")).conflicts ∧
    strIncludes ccConflict.depLicense "GPL" = false ∧
    ccConflict.fixes = [] :=
  ⟨by decide, by decide,
   scan_nonGPL_fixes_empty mitStaticConfig [] ccTree "s1" "t1"
     (fun _ => "cid0") ccConflict (by decide) (by decide)⟩

end Codicense
